import Mathlib

/-!
Verification of the workflow-graph nodes of the WhatsApp AI-companion
repository (`src/ai_companion/graph/nodes.py`).

The nodes are shallowly embedded as pure Lean functions.  External
collaborators (the router chain, the character response chain, the
text-to-image and text-to-speech modules, the memory manager, the
schedule generator, the chat model, the uuid generator) are passed in
as function parameters: a node's call to such a collaborator is
modelled by applying the parameter, and where a claim is about *what*
is passed to a collaborator, the node's result records the arguments
of those calls.

LangGraph state-merging (the reducer of `AICompanionState.messages`
lives in `state.py`, which is not part of the sources) is modelled
from the spec: nodes return sparse patches; the engine appends
returned messages, removes by identity for removal markers, and
replaces scalar fields.
-/

namespace Ava

/-- Role of a message: `HumanMessage` (user) or `AIMessage` (agent). -/
inductive Role
  | user
  | agent
deriving DecidableEq, Repr

/-- A message in the conversation history: a stable identity (langchain
message `id`, `none` when never assigned), a role and text content. -/
structure Message where
  id : Option Nat
  role : Role
  content : String
deriving DecidableEq, Repr

/-- A memory entity owned by the memory store (only its content matters
to the graph nodes). -/
structure Memory where
  content : String
deriving DecidableEq, Repr

/-- The conversation state threaded through the graph
(`AICompanionState`).  Fields read with `state.get(key, default)` in
the Python code are `Option`-valued here, `none` meaning absent. -/
structure AICompanionState where
  messages : List Message
  summary : Option String
  workflow : Option String
  current_activity : Option String
  apply_activity : Option Bool
  memory_context : Option String
  image_path : Option String
  audio_buffer : Option (List Nat)
deriving DecidableEq, Repr

/-- A value placed under the `messages` key of a node's returned patch:
an `AIMessage(content=...)`, a `HumanMessage(content=...)`, a raw
string (the audio node returns the bare response text), or a
`RemoveMessage(id=...)` removal marker. -/
inductive ReturnedMessage
  | ai (content : String)
  | human (content : String)
  | raw (content : String)
  | removeMessage (id : Option Nat)
deriving DecidableEq, Repr

/-- A sparse state patch as returned by a node: `none` means the key is
absent from the returned dict. -/
structure StateUpdate where
  messages : Option (List ReturnedMessage) := none
  summary : Option String := none
  workflow : Option String := none
  current_activity : Option String := none
  apply_activity : Option Bool := none
  memory_context : Option String := none
  image_path : Option String := none
  audio_buffer : Option (List Nat) := none
deriving DecidableEq, Repr

/-- The configuration values the nodes read from `settings`. -/
structure Settings where
  ROUTER_MESSAGES_TO_ANALYZE : Nat
  TOTAL_MESSAGES_AFTER_SUMMARY : Nat
deriving DecidableEq, Repr

/-- The structured output of the router chain (`response_type` field). -/
structure RouterChainResponse where
  response_type : String
deriving DecidableEq, Repr

/-- The dict passed to `chain.ainvoke` by the three response
generators: message list, current activity and memory context. -/
structure ChainInput where
  messages : List Message
  current_activity : String
  memory_context : String
deriving DecidableEq, Repr

/-- The structured output of `create_scenario` (its `image_prompt`). -/
structure Scenario where
  image_prompt : String
deriving DecidableEq, Repr

/-- Python slice `xs[-n:]`: the last `n` elements; for `n = 0` the
index `-0` is `0`, so the slice is the whole list. -/
def pyTakeLast {α : Type} (n : Nat) (xs : List α) : List α :=
  if n = 0 then xs else xs.drop (xs.length - n)

/-- Python slice `xs[:-n]`: everything but the last `n` elements; for
`n = 0` the slice `xs[:0]` is empty. -/
def pyDropLast {α : Type} (n : Nat) (xs : List α) : List α :=
  if n = 0 then [] else xs.take (xs.length - n)

/-- Modelled from the spec: how the Workflow Engine merges one value
returned under the `messages` key into the history — returned messages
are appended (a raw string is coerced to a user message; a fresh
identity is assigned on append), and a `RemoveMessage` marker removes
by identity match. -/
def applyMessageUpdate (freshId : Nat) (history : List Message) :
    ReturnedMessage → List Message
  | .ai c => history ++ [⟨some freshId, Role.agent, c⟩]
  | .human c => history ++ [⟨some freshId, Role.user, c⟩]
  | .raw c => history ++ [⟨some freshId, Role.user, c⟩]
  | .removeMessage i => history.filter (fun m => m.id != i)

/-- Modelled from the spec: fold of `applyMessageUpdate` over the list
of returned message values, assigning consecutive fresh identities. -/
def applyMessageUpdates (freshId : Nat) (history : List Message) :
    List ReturnedMessage → List Message
  | [] => history
  | u :: us => applyMessageUpdates (freshId + 1) (applyMessageUpdate freshId history u) us

/-- Replace-merge for a scalar field of a patch: a present value
replaces, an absent one keeps the old value. -/
def patchField {α : Type} (new old : Option α) : Option α :=
  match new with
  | none => old
  | some v => some v

/-- Modelled from the spec: the Workflow Engine applies a node's patch
to the state — append/identity-removal for `messages`, replacement for
every scalar field. -/
def applyUpdate (freshId : Nat) (s : AICompanionState) (u : StateUpdate) :
    AICompanionState where
  messages :=
    match u.messages with
    | none => s.messages
    | some rs => applyMessageUpdates freshId s.messages rs
  summary := patchField u.summary s.summary
  workflow := patchField u.workflow s.workflow
  current_activity := patchField u.current_activity s.current_activity
  apply_activity := patchField u.apply_activity s.apply_activity
  memory_context := patchField u.memory_context s.memory_context
  image_path := patchField u.image_path s.image_path
  audio_buffer := patchField u.audio_buffer s.audio_buffer

/-- The router node (`router_node`): invokes the router chain on the
last `ROUTER_MESSAGES_TO_ANALYZE` messages and returns
`{workflow: response.response_type}` verbatim. -/
def router_node (s : Settings) (chain : List Message → RouterChainResponse)
    (state : AICompanionState) : StateUpdate :=
  let response := chain (pyTakeLast s.ROUTER_MESSAGES_TO_ANALYZE state.messages)
  { workflow := some response.response_type }

/-- The context injection node (`context_injection_node`): compares the
schedule-derived activity (the result of
`ScheduleContextGenerator.get_current_activity()`, passed in as
`schedule_context`) with `state.get("current_activity", "")` and
returns `{apply_activity, current_activity}`. -/
def context_injection_node (schedule_context : String)
    (state : AICompanionState) : StateUpdate :=
  let apply_activity :=
    if schedule_context ≠ state.current_activity.getD "" then true else false
  { apply_activity := some apply_activity, current_activity := some schedule_context }

/-- The conversation node (`conversation_node`): re-derives the current
activity from the schedule generator (parameter `schedule_activity`),
invokes the character response chain (built from
`state.get("summary", "")`) on the full message history, and returns
`{messages: AIMessage(content=response)}`. -/
def conversation_node (schedule_activity : String)
    (chain : String → ChainInput → String)
    (state : AICompanionState) : StateUpdate :=
  let current_activity := schedule_activity
  let memory_context := state.memory_context.getD ""
  let response := chain (state.summary.getD "")
    ⟨state.messages, current_activity, memory_context⟩
  { messages := some [ReturnedMessage.ai response] }

/-- The image node (`image_node`): derives a scenario from the last 5
messages, forms the image path `generated_images/image_<uuid>.png`
(the uuid is external randomness, passed in), builds the synthetic
`HumanMessage` describing the attached image, appends it to the
message list passed to the response chain, and returns
`{messages: AIMessage(content=response), image_path}`.  The call
`generate_image(scenario.image_prompt, img_path)` writes the image
file as an external side effect and is not observable in the state. -/
def image_node (schedule_activity : String)
    (chain : String → ChainInput → String)
    (create_scenario : List Message → Scenario)
    (uuid : String)
    (state : AICompanionState) : StateUpdate :=
  let current_activity := schedule_activity
  let memory_context := state.memory_context.getD ""
  let scenario := create_scenario (pyTakeLast 5 state.messages)
  let img_path := "generated_images/image_" ++ uuid ++ ".png"
  let scenario_message : Message :=
    ⟨none, Role.user,
      "<image attached by Ava generated from prompt: " ++ scenario.image_prompt ++ ">"⟩
  let updated_messages := state.messages ++ [scenario_message]
  let response := chain (state.summary.getD "")
    ⟨updated_messages, current_activity, memory_context⟩
  { messages := some [ReturnedMessage.ai response], image_path := some img_path }

/-- The audio node (`audio_node`): invokes the character response chain
on the full history, then synthesizes speech from the response text,
and returns `{messages: response, audio_buffer: output_audio}` — the
message value is the bare response string, not an `AIMessage`. -/
def audio_node (schedule_activity : String)
    (chain : String → ChainInput → String)
    (synthesize : String → List Nat)
    (state : AICompanionState) : StateUpdate :=
  let current_activity := schedule_activity
  let memory_context := state.memory_context.getD ""
  let response := chain (state.summary.getD "")
    ⟨state.messages, current_activity, memory_context⟩
  let output_audio := synthesize response
  { messages := some [ReturnedMessage.raw response], audio_buffer := some output_audio }

/-- The summarization node (`summarize_conversation_node`): builds the
summary instruction (extend when `state.get("summary", "")` is
non-empty, create otherwise), invokes the chat model on the history
followed by a `HumanMessage` carrying that instruction, and returns
`{summary: response, messages: [RemoveMessage(id=m.id) for m in
state["messages"][:-TOTAL_MESSAGES_AFTER_SUMMARY]]}`. -/
def summarize_conversation_node (s : Settings)
    (model : List Message → String)
    (state : AICompanionState) : StateUpdate :=
  let summary := state.summary.getD ""
  let summary_message :=
    if summary ≠ "" then
      "This is summary of the conversation to date between Ava and the user: " ++
        summary ++ "\n\n" ++
        "Extend the summary by taking into account the new messages above:"
    else
      "Create a summary of the conversation above between Ava and the user. " ++
        "The summary must be a short description of the conversation so far, " ++
        "but that captures all the relevant information shared between Ava and the user:"
  let messages := state.messages ++ [⟨none, Role.user, summary_message⟩]
  let response := model messages
  let delete_messages :=
    (pyDropLast s.TOTAL_MESSAGES_AFTER_SUMMARY state.messages).map
      (fun m => ReturnedMessage.removeMessage m.id)
  { summary := some response, messages := some delete_messages }

/-- Result of the memory extraction node: the messages passed to
`memory_manager.extract_and_store_memories` (in call order) together
with the returned patch. -/
structure MemoryExtractionResult where
  store_calls : List Message
  update : StateUpdate
deriving DecidableEq, Repr

/-- The memory extraction node (`memory_extraction_node`): returns `{}`
without calling the store when `messages` is empty, otherwise passes
exactly `state["messages"][-1]` to the store and returns `{}`. -/
def memory_extraction_node (state : AICompanionState) : MemoryExtractionResult :=
  if h : state.messages = [] then
    { store_calls := [], update := {} }
  else
    { store_calls := [state.messages.getLast h], update := {} }

/-- Result of the memory injection node: the query strings passed to
`memory_manager.get_relevant_memories` together with the returned
patch. -/
structure MemoryInjectionResult where
  store_queries : List String
  update : StateUpdate
deriving DecidableEq, Repr

/-- The memory injection node (`memory_injection_node`): joins the
contents of the last 3 messages with spaces, queries the store with
that string, formats the memories, and returns
`{memory_context: <formatted text>}`.  There is no empty-history
check. -/
def memory_injection_node (get_relevant_memories : String → List Memory)
    (format_memories_for_prompt : List Memory → String)
    (state : AICompanionState) : MemoryInjectionResult :=
  let recent_context :=
    String.intercalate " " ((pyTakeLast 3 state.messages).map Message.content)
  let memories := get_relevant_memories recent_context
  let memory_context := format_memories_for_prompt memories
  { store_queries := [recent_context],
    update := { memory_context := some memory_context } }

/-- The initial per-thread state: no messages, no summary, no workflow,
no activity fields. -/
def initialState : AICompanionState :=
  { messages := [], summary := none, workflow := none, current_activity := none,
    apply_activity := none, memory_context := none, image_path := none,
    audio_buffer := none }

/-- A concrete router chain that returns a label outside the allowed
set. -/
def videoRouterChain : List Message → RouterChainResponse :=
  fun _ => ⟨"video"⟩

/-- A concrete character response chain returning a fixed reply. -/
def fixedChain : String → ChainInput → String :=
  fun _ _ => "Here you go!"

/-- A concrete scenario generator returning a fixed image prompt. -/
def kyotoScenarioGen : List Message → Scenario :=
  fun _ => ⟨"a sunset over Kyoto"⟩

/-- A concrete speech synthesizer. -/
def fixedSynth : String → List Nat :=
  fun _ => [1, 2, 3]

/-- A concrete chat model returning a fixed summary text. -/
def fixedSummaryModel : List Message → String :=
  fun _ => "a rolling summary"

/-- A concrete memory store returning one memory for every query. -/
def jazzStore : String → List Memory :=
  fun _ => [⟨"Alex loves jazz"⟩]

/-- A concrete memory formatter joining contents with newlines. -/
def newlineFormat : List Memory → String :=
  fun ms => String.intercalate "\n" (ms.map Memory.content)

/-- A concrete state with a single user message. -/
def oneMsgState : AICompanionState :=
  { initialState with
    messages := [⟨some 0, Role.user, "Hi, I am Alex and I love jazz."⟩] }

/-- A concrete state with three messages carrying distinct identities. -/
def threeMsgState : AICompanionState :=
  { initialState with
    messages :=
      [⟨some 0, Role.user, "hello"⟩,
       ⟨some 1, Role.agent, "hi there"⟩,
       ⟨some 2, Role.user, "show me Kyoto"⟩] }

/-- A concrete state carrying a non-empty summary. -/
def summaryState : AICompanionState :=
  { initialState with summary := some "We talked about jazz" }

/-- The three-message state with the activity fields populated, to
contrast with `threeMsgState` where they are absent. -/
def activityStateB : AICompanionState :=
  { threeMsgState with
    current_activity := some "painting",
    apply_activity := some true }

/-- Applying a list of identity-removal markers to a history filters
out exactly the messages whose identity occurs among the removed
identities. -/
theorem applyMessageUpdates_removals (ids : List (Option Nat)) :
    ∀ (n : Nat) (h : List Message),
      applyMessageUpdates n h (ids.map ReturnedMessage.removeMessage) =
        h.filter (fun m => !(ids.contains m.id)) := by
  induction ids with
  | nil =>
      intro n h
      simp [applyMessageUpdates]
  | cons i t ih =>
      intro n h
      simp only [List.map_cons, applyMessageUpdates, applyMessageUpdate]
      rw [ih]
      rw [List.filter_filter]
      apply List.filter_congr
      intro m _
      by_cases hmi : m.id = i <;> simp [hmi, Bool.and_comm]

/-- Filtering an appended list by non-membership of the identity in
the first part's identities returns exactly the second part, provided
all identities are distinct. -/
theorem filter_not_mem_prefix_ids (p s : List Message)
    (hnd : ((p ++ s).map Message.id).Nodup) :
    (p ++ s).filter (fun m => !((p.map Message.id).contains m.id)) = s := by
  rw [List.map_append] at hnd
  rw [List.filter_append]
  have hdisj : (p.map Message.id).Disjoint (s.map Message.id) :=
    (List.nodup_append.mp hnd).2.2
  have h1 : p.filter (fun m => !((p.map Message.id).contains m.id)) = [] := by
    rw [List.filter_eq_nil_iff]
    intro m hm
    simp [List.mem_map_of_mem Message.id hm]
  have h2 : s.filter (fun m => !((p.map Message.id).contains m.id)) = s := by
    rw [List.filter_eq_self]
    intro m hm
    simp only [Bool.not_eq_true']
    rw [Bool.eq_false_iff]
    intro hc
    simp only [List.contains_iff_exists_mem_beq, List.mem_map, beq_iff_eq] at hc
    obtain ⟨a, ⟨b, hb, hba⟩, haid⟩ := hc
    have hmem : m.id ∈ p.map Message.id := by
      rw [haid, ← hba]
      exact List.mem_map_of_mem Message.id hb
    exact hdisj hmem (List.mem_map_of_mem Message.id hm)
  rw [h1, h2, List.nil_append]

/-- Splitting a list into the Python slices `xs[:-n]` and `xs[-n:]`
recovers the list. -/
theorem pyDropLast_append_pyTakeLast {α : Type} (n : Nat) (xs : List α) :
    pyDropLast n xs ++ pyTakeLast n xs = xs := by
  unfold pyDropLast pyTakeLast
  by_cases h : n = 0
  · simp [h]
  · simp [h, List.take_append_drop]

/-- The Python slice `xs[-n:]` has length at least `n` when the list
holds at least `n` elements. -/
theorem pyTakeLast_length {α : Type} (n : Nat) (xs : List α)
    (h : n ≤ xs.length) : n ≤ (pyTakeLast n xs).length := by
  unfold pyTakeLast
  by_cases h0 : n = 0
  · simp [h0]
  · simp only [h0, if_false, List.length_drop]
    omega

/-- C1 counterexample: when the router chain classifies as `video` (a
label outside {conversation, image, audio}), the router node stores
`video` in `workflow` verbatim — it neither stays inside the allowed
set nor defaults to `conversation`. -/
theorem router_default_counterexample :
    (router_node ⟨5, 5⟩ videoRouterChain initialState).workflow = some "video" ∧
    some "video" ≠ some "conversation" ∧
    "video" ∉ ["conversation", "image", "audio"] :=
  ⟨rfl, by decide, by decide⟩

/-- C1 (amended): for every state, the router node sets `workflow` to
exactly the classifier's returned `response_type` — with no validation
or defaulting, so an out-of-set label propagates into `workflow` — and
it produces no state change other than setting `workflow`. -/
theorem router_sets_workflow_verbatim (s : Settings)
    (chain : List Message → RouterChainResponse) (state : AICompanionState)
    (freshId : Nat) :
    (router_node s chain state).workflow =
      some (chain (pyTakeLast s.ROUTER_MESSAGES_TO_ANALYZE state.messages)).response_type ∧
    applyUpdate freshId state (router_node s chain state) =
      { state with
        workflow := some (chain (pyTakeLast s.ROUTER_MESSAGES_TO_ANALYZE state.messages)).response_type } :=
  ⟨rfl, rfl⟩

/-- C2 (amended): for every state on the image path, the image node
appends the synthetic user-role message referencing the exact
generated image prompt to the message sequence passed to the response
chain — immediately after the existing history and before the final
response is generated — but the returned update carries only the new
agent message and the `image_path` artifact: after merging, the
resulting message history is the prior history with only the new agent
message appended, without the synthetic message. -/
theorem image_node_synthetic_only_in_chain_input (sched : String)
    (chain : String → ChainInput → String)
    (create_scenario : List Message → Scenario)
    (uuid : String) (state : AICompanionState) (freshId : Nat) :
    (image_node sched chain create_scenario uuid state).messages =
      some [ReturnedMessage.ai (chain (state.summary.getD "")
        ⟨state.messages ++
          [⟨none, Role.user, "<image attached by Ava generated from prompt: " ++
            (create_scenario (pyTakeLast 5 state.messages)).image_prompt ++ ">"⟩],
         sched, state.memory_context.getD ""⟩)] ∧
    (image_node sched chain create_scenario uuid state).image_path =
      some ("generated_images/image_" ++ uuid ++ ".png") ∧
    (applyUpdate freshId state (image_node sched chain create_scenario uuid state)).messages =
      state.messages ++
        [⟨some freshId, Role.agent, chain (state.summary.getD "")
          ⟨state.messages ++
            [⟨none, Role.user, "<image attached by Ava generated from prompt: " ++
              (create_scenario (pyTakeLast 5 state.messages)).image_prompt ++ ">"⟩],
           sched, state.memory_context.getD ""⟩⟩] :=
  ⟨rfl, rfl, rfl⟩

/-- C2 counterexample: on a concrete image-path turn with scenario
prompt `a sunset over Kyoto`, the message history resulting from the
image node's update is the old history plus the agent response only —
no message in it references the generated prompt, so the synthetic
message is not part of the resulting history. -/
theorem image_node_history_counterexample :
    (applyUpdate 3 threeMsgState
        (image_node "painting" fixedChain kyotoScenarioGen "u1" threeMsgState)).messages =
      [⟨some 0, Role.user, "hello"⟩, ⟨some 1, Role.agent, "hi there"⟩,
       ⟨some 2, Role.user, "show me Kyoto"⟩, ⟨some 3, Role.agent, "Here you go!"⟩] ∧
    "<image attached by Ava generated from prompt: a sunset over Kyoto>" ∉
      ((applyUpdate 3 threeMsgState
          (image_node "painting" fixedChain kyotoScenarioGen "u1" threeMsgState)).messages.map
        Message.content) :=
  ⟨rfl, by decide⟩

/-- C3: for every state whose message identities are distinct and
which holds at least `TOTAL_MESSAGES_AFTER_SUMMARY` messages, the
summarization node's pruning set is exactly the identity-keyed removal
markers of the prefix `messages[:-TOTAL_MESSAGES_AFTER_SUMMARY]`; that
prefix followed by the retained suffix is the whole history; applying
the removals by identity leaves exactly the trailing
`TOTAL_MESSAGES_AFTER_SUMMARY` messages, so the length after
summarization never drops below that bound. -/
theorem summarize_prunes_prefix_keeps_last (s : Settings)
    (model : List Message → String) (state : AICompanionState) (freshId : Nat)
    (hnd : (state.messages.map Message.id).Nodup)
    (hlen : s.TOTAL_MESSAGES_AFTER_SUMMARY ≤ state.messages.length) :
    (summarize_conversation_node s model state).messages =
      some ((pyDropLast s.TOTAL_MESSAGES_AFTER_SUMMARY state.messages).map
        (fun m => ReturnedMessage.removeMessage m.id)) ∧
    pyDropLast s.TOTAL_MESSAGES_AFTER_SUMMARY state.messages ++
      pyTakeLast s.TOTAL_MESSAGES_AFTER_SUMMARY state.messages = state.messages ∧
    (applyUpdate freshId state (summarize_conversation_node s model state)).messages =
      pyTakeLast s.TOTAL_MESSAGES_AFTER_SUMMARY state.messages ∧
    s.TOTAL_MESSAGES_AFTER_SUMMARY ≤
      (applyUpdate freshId state (summarize_conversation_node s model state)).messages.length := by
  have hsplit := pyDropLast_append_pyTakeLast s.TOTAL_MESSAGES_AFTER_SUMMARY state.messages
  have happly : (applyUpdate freshId state (summarize_conversation_node s model state)).messages =
      pyTakeLast s.TOTAL_MESSAGES_AFTER_SUMMARY state.messages := by
    show applyMessageUpdates freshId state.messages
        ((pyDropLast s.TOTAL_MESSAGES_AFTER_SUMMARY state.messages).map
          (fun m => ReturnedMessage.removeMessage m.id)) =
      pyTakeLast s.TOTAL_MESSAGES_AFTER_SUMMARY state.messages
    rw [show (fun m => ReturnedMessage.removeMessage m.id) =
          (ReturnedMessage.removeMessage ∘ Message.id) from rfl]
    rw [← List.map_map]
    rw [applyMessageUpdates_removals]
    have key := filter_not_mem_prefix_ids
      (pyDropLast s.TOTAL_MESSAGES_AFTER_SUMMARY state.messages)
      (pyTakeLast s.TOTAL_MESSAGES_AFTER_SUMMARY state.messages)
      (by rw [hsplit]; exact hnd)
    rw [← key]
    congr 1
    exact hsplit.symm
  refine ⟨rfl, hsplit, happly, ?_⟩
  rw [happly]
  exact pyTakeLast_length _ _ hlen

/-- C3 witness: with `TOTAL_MESSAGES_AFTER_SUMMARY = 2` and three
distinct-identity messages, summarization leaves the trailing two. -/
theorem summarize_prunes_prefix_keeps_last_witness :
    (threeMsgState.messages.map Message.id).Nodup ∧
    2 ≤ threeMsgState.messages.length ∧
    (applyUpdate 9 threeMsgState
        (summarize_conversation_node ⟨5, 2⟩ fixedSummaryModel threeMsgState)).messages =
      pyTakeLast 2 threeMsgState.messages :=
  ⟨by decide, by decide,
    (summarize_prunes_prefix_keeps_last ⟨5, 2⟩ fixedSummaryModel threeMsgState 9
      (by decide) (by decide)).2.2.1⟩

/-- C4: for every state, the summarization node branches on whether
the summary is empty: with an empty (or absent) summary the model
receives the initial-summary instruction appended to the full history,
and with a non-empty summary it receives the extend instruction, which
embeds the prior summary text. -/
theorem summarize_branches_on_summary (s : Settings)
    (model : List Message → String) (state : AICompanionState) :
    (state.summary.getD "" = "" →
      (summarize_conversation_node s model state).summary =
        some (model (state.messages ++ [⟨none, Role.user,
          "Create a summary of the conversation above between Ava and the user. " ++
          "The summary must be a short description of the conversation so far, " ++
          "but that captures all the relevant information shared between Ava and the user:"⟩]))) ∧
    (∀ t, state.summary = some t → t ≠ "" →
      (summarize_conversation_node s model state).summary =
        some (model (state.messages ++ [⟨none, Role.user,
          "This is summary of the conversation to date between Ava and the user: " ++ t ++
          "\n\n" ++ "Extend the summary by taking into account the new messages above:"⟩]))) := by
  constructor
  · intro h
    simp only [summarize_conversation_node]
    rw [h]
    simp
  · intro t ht hne
    simp only [summarize_conversation_node]
    rw [ht]
    simp [hne]

/-- C4 witness: with the non-empty summary `We talked about jazz`, the
model receives the extend instruction embedding that text. -/
theorem summarize_branches_on_summary_witness :
    summaryState.summary = some "We talked about jazz" ∧
    "We talked about jazz" ≠ "" ∧
    (summarize_conversation_node ⟨5, 2⟩ fixedSummaryModel summaryState).summary =
      some (fixedSummaryModel (summaryState.messages ++ [⟨none, Role.user,
        "This is summary of the conversation to date between Ava and the user: " ++
        "We talked about jazz" ++ "\n\n" ++
        "Extend the summary by taking into account the new messages above:"⟩])) :=
  ⟨rfl, by decide,
    (summarize_branches_on_summary ⟨5, 2⟩ fixedSummaryModel summaryState).2
      "We talked about jazz" rfl (by decide)⟩

/-- C5 counterexample: on the empty-history state the memory injection
node does not short-circuit: it issues one store query (with the empty
string) and returns an update that sets `memory_context`, changing it
from its prior (absent) value. -/
theorem memory_injection_empty_counterexample :
    initialState.messages = [] ∧
    (memory_injection_node jazzStore newlineFormat initialState).store_queries = [""] ∧
    (memory_injection_node jazzStore newlineFormat initialState).store_queries ≠ [] ∧
    (memory_injection_node jazzStore newlineFormat initialState).update.memory_context =
      some "Alex loves jazz" ∧
    (memory_injection_node jazzStore newlineFormat initialState).update.memory_context ≠
      initialState.memory_context :=
  ⟨rfl, rfl, by decide, rfl, by decide⟩

/-- C5 (amended): on every state with empty `messages`, the memory
injection node does not short-circuit: it queries the store once with
the empty string and returns an update setting `memory_context` to the
formatted result of that query. -/
theorem memory_injection_empty_queries (get_relevant_memories : String → List Memory)
    (format_memories_for_prompt : List Memory → String) (state : AICompanionState)
    (h : state.messages = []) :
    (memory_injection_node get_relevant_memories format_memories_for_prompt
        state).store_queries = [""] ∧
    (memory_injection_node get_relevant_memories format_memories_for_prompt
        state).update =
      { memory_context :=
          some (format_memories_for_prompt (get_relevant_memories "")) } := by
  simp only [memory_injection_node]
  rw [h]
  exact ⟨rfl, rfl⟩

/-- C5 witness: the amended statement at the initial state with a
concrete store and formatter. -/
theorem memory_injection_empty_queries_witness :
    initialState.messages = [] ∧
    (memory_injection_node jazzStore newlineFormat initialState).store_queries = [""] ∧
    (memory_injection_node jazzStore newlineFormat initialState).update =
      { memory_context := some (newlineFormat (jazzStore "")) } :=
  ⟨rfl, (memory_injection_empty_queries jazzStore newlineFormat initialState rfl).1,
    (memory_injection_empty_queries jazzStore newlineFormat initialState rfl).2⟩

/-- C6 counterexample: on the very first turn (`current_activity`
absent) with the schedule-derived activity equal to the empty string,
the node sets `apply_activity` to false — the absent field is compared
as the default empty string, so the first turn is not unconditionally
treated as a change. -/
theorem context_injection_first_turn_counterexample :
    initialState.current_activity = none ∧
    (context_injection_node "" initialState).apply_activity = some false :=
  ⟨rfl, rfl⟩

/-- C6 (amended): for every state, `apply_activity` is true exactly
when the schedule-derived activity differs (string inequality) from
the prior `current_activity` with an absent value compared as the
empty string, false otherwise, and `current_activity` is set to the
schedule-derived value; consequently the first turn is treated as a
change exactly when the schedule-derived activity is non-empty. -/
theorem context_injection_activity_change (schedule_context : String)
    (state : AICompanionState) :
    ((context_injection_node schedule_context state).apply_activity = some true ↔
      schedule_context ≠ state.current_activity.getD "") ∧
    ((context_injection_node schedule_context state).apply_activity = some false ↔
      schedule_context = state.current_activity.getD "") ∧
    (context_injection_node schedule_context state).current_activity =
      some schedule_context ∧
    (state.current_activity = none → schedule_context ≠ "" →
      (context_injection_node schedule_context state).apply_activity = some true) := by
  unfold context_injection_node
  by_cases h : schedule_context = state.current_activity.getD ""
  · rw [if_neg (not_not_intro h)]
    refine ⟨by simp [h], by simp [h], rfl, ?_⟩
    intro hn hne
    rw [hn] at h
    simp only [Option.getD_none] at h
    exact absurd h hne
  · rw [if_pos h]
    exact ⟨by simp [h], by simp [h], rfl, fun _ _ => rfl⟩

/-- C6 witness: a non-empty schedule activity on the first turn yields
`apply_activity = true`. -/
theorem context_injection_activity_change_witness :
    initialState.current_activity = none ∧
    ("painting" : String) ≠ "" ∧
    (context_injection_node "painting" initialState).apply_activity = some true :=
  ⟨rfl, by decide,
    (context_injection_activity_change "painting" initialState).2.2.2 rfl (by decide)⟩

/-- C7: for every state, the memory extraction node returns the empty
update; with empty `messages` it passes nothing to the store, and
otherwise it passes exactly the single most-recent message and nothing
else. -/
theorem memory_extraction_latest_only (state : AICompanionState) :
    (memory_extraction_node state).update = {} ∧
    (state.messages = [] → (memory_extraction_node state).store_calls = []) ∧
    (∀ h : state.messages ≠ [],
      (memory_extraction_node state).store_calls = [state.messages.getLast h]) := by
  unfold memory_extraction_node
  by_cases h : state.messages = []
  · rw [dif_pos h]
    exact ⟨rfl, fun _ => rfl, fun hne => absurd h hne⟩
  · rw [dif_neg h]
    exact ⟨rfl, fun he => absurd he h, fun _ => rfl⟩

/-- C7 witness: with one message in the state, exactly that message is
passed to the store. -/
theorem memory_extraction_latest_only_witness :
    oneMsgState.messages ≠ [] ∧
    (memory_extraction_node oneMsgState).store_calls =
      [⟨some 0, Role.user, "Hi, I am Alex and I love jazz."⟩] :=
  ⟨by decide,
    ((memory_extraction_latest_only oneMsgState).2.2 (by decide)).trans rfl⟩

/-- C8: for every state on the audio path, the audio node synthesizes
audio from exactly the generated response text, and its update stores
the raw response string as the message value — unlike the conversation
path, which wraps the same response as an agent (`AIMessage`)
message — together with the audio bytes in `audio_buffer`. -/
theorem audio_node_raw_message_and_tts (sched : String)
    (chain : String → ChainInput → String)
    (synthesize : String → List Nat) (state : AICompanionState) :
    (audio_node sched chain synthesize state).messages =
      some [ReturnedMessage.raw (chain (state.summary.getD "")
        ⟨state.messages, sched, state.memory_context.getD ""⟩)] ∧
    (audio_node sched chain synthesize state).audio_buffer =
      some (synthesize (chain (state.summary.getD "")
        ⟨state.messages, sched, state.memory_context.getD ""⟩)) ∧
    (conversation_node sched chain state).messages =
      some [ReturnedMessage.ai (chain (state.summary.getD "")
        ⟨state.messages, sched, state.memory_context.getD ""⟩)] :=
  ⟨rfl, rfl, rfl⟩

/-- C9: any two states that agree on every field other than
`current_activity` and `apply_activity` produce identical outputs from
all three response generators: each re-derives the activity from the
schedule generator and never reads those two state fields. -/
theorem generators_ignore_activity_fields (sched : String)
    (chain : String → ChainInput → String)
    (create_scenario : List Message → Scenario) (uuid : String)
    (synthesize : String → List Nat)
    (s1 s2 : AICompanionState)
    (hm : s1.messages = s2.messages) (hs : s1.summary = s2.summary)
    (hmc : s1.memory_context = s2.memory_context)
    (_hw : s1.workflow = s2.workflow)
    (_hip : s1.image_path = s2.image_path)
    (_hab : s1.audio_buffer = s2.audio_buffer) :
    conversation_node sched chain s1 = conversation_node sched chain s2 ∧
    image_node sched chain create_scenario uuid s1 =
      image_node sched chain create_scenario uuid s2 ∧
    audio_node sched chain synthesize s1 = audio_node sched chain synthesize s2 := by
  refine ⟨?_, ?_, ?_⟩ <;>
    simp [conversation_node, image_node, audio_node, hm, hs, hmc]

/-- C9 witness: two concrete states differing only in the activity
fields give the same conversation-node output. -/
theorem generators_ignore_activity_fields_witness :
    threeMsgState.messages = activityStateB.messages ∧
    threeMsgState.current_activity ≠ activityStateB.current_activity ∧
    conversation_node "reading" fixedChain threeMsgState =
      conversation_node "reading" fixedChain activityStateB :=
  ⟨rfl, by decide,
    (generators_ignore_activity_fields "reading" fixedChain kyotoScenarioGen "u1"
      fixedSynth threeMsgState activityStateB rfl rfl rfl rfl rfl rfl).1⟩

/-- C10: for every state, the summarization node's returned `messages`
component consists exclusively of identity-keyed removal instructions
(the summary-instruction message it builds goes only to the model
invocation), so the merged history is a sublist of the prior one — no
message is ever appended — and every state field other than `summary`
and `messages` is left unchanged. -/
theorem summarize_no_append_frame (s : Settings)
    (model : List Message → String) (state : AICompanionState) (freshId : Nat) :
    (∀ r, r ∈ ((summarize_conversation_node s model state).messages.getD []) →
      ∃ i, r = ReturnedMessage.removeMessage i) ∧
    List.Sublist
      (applyUpdate freshId state (summarize_conversation_node s model state)).messages
      state.messages ∧
    (applyUpdate freshId state (summarize_conversation_node s model state)).workflow =
      state.workflow ∧
    (applyUpdate freshId state (summarize_conversation_node s model state)).current_activity =
      state.current_activity ∧
    (applyUpdate freshId state (summarize_conversation_node s model state)).apply_activity =
      state.apply_activity ∧
    (applyUpdate freshId state (summarize_conversation_node s model state)).memory_context =
      state.memory_context ∧
    (applyUpdate freshId state (summarize_conversation_node s model state)).image_path =
      state.image_path ∧
    (applyUpdate freshId state (summarize_conversation_node s model state)).audio_buffer =
      state.audio_buffer := by
  refine ⟨?_, ?_, rfl, rfl, rfl, rfl, rfl, rfl⟩
  · intro r hr
    simp only [summarize_conversation_node, Option.getD_some, List.mem_map] at hr
    obtain ⟨m, _, hm⟩ := hr
    exact ⟨m.id, hm.symm⟩
  · show List.Sublist
      (applyMessageUpdates freshId state.messages
        ((pyDropLast s.TOTAL_MESSAGES_AFTER_SUMMARY state.messages).map
          (fun m => ReturnedMessage.removeMessage m.id)))
      state.messages
    rw [show (fun m => ReturnedMessage.removeMessage m.id) =
          (ReturnedMessage.removeMessage ∘ Message.id) from rfl]
    rw [← List.map_map]
    rw [applyMessageUpdates_removals]
    exact List.filter_sublist _

/-- C10 witness: on a concrete summarization, a removal marker from
the returned `messages` component is indeed a removal instruction. -/
theorem summarize_no_append_frame_witness :
    ReturnedMessage.removeMessage (some 0) ∈
      ((summarize_conversation_node ⟨5, 2⟩ fixedSummaryModel threeMsgState).messages.getD []) ∧
    ∃ i, ReturnedMessage.removeMessage (some 0) = ReturnedMessage.removeMessage i :=
  ⟨by decide,
    (summarize_no_append_frame ⟨5, 2⟩ fixedSummaryModel threeMsgState 9).1
      (ReturnedMessage.removeMessage (some 0)) (by decide)⟩

end Ava
